import Mathlib

/-!
Verification of the `ezlo-hub-kit` hub-client session engine (`src/EzloHub.ts`).

The file shallowly embeds the parts of `EzloHub` that the claims touch:

* the untyped hub messages, restricted to the fields the code actually reads
  (`id`, `method`, `msg_subclass`, `result.status`, `result.scene_id`,
  `result.to`, `error.data`, `result` as a whole);
* the broadcast predicates (`UIBroadcastPredicate` and friends) with their
  JavaScript semantics: several of them are written `P && e` where `P` is a
  function *reference* (never called), which in JavaScript is truthy, so the
  whole expression evaluates to `e`;
* the observer registry (`addObserver` / `removeObserver` /
  `notifyObservers`), where JavaScript object identity is modelled by a
  numeric registration id and `Array.prototype.push` / `filter` /
  `forEach` keep their JavaScript meaning — in particular
  `removeObserver` only *returns* the filtered array, it never assigns it
  back to `this.observers`;
* the synchronous decision logic of `connect`, `sendRequest`,
  `setHouseMode` and `createHub`, with promise settlement modelled as an
  ordered list of resolve/reject events of which the first one wins.
-/

namespace EzloHubKit

/-! ## Message model (`Message = Record<string, any>` restricted to the read fields) -/

/-- Error object carried in the `error` field of a response (`error.data`). -/
structure ErrObj where
  data : String
  deriving Repr, DecidableEq

/-- Fields of `msg.result` that the code reads: `result.status`,
`result.scene_id`, `result.to`.  A missing field is `none` (JS `undefined`). -/
structure MsgResult where
  status : Option String := none
  scene_id : Option String := none
  «to» : Option String := none
  deriving Repr, DecidableEq

/-- An inbound hub message, restricted to the top-level fields the code
reads.  A missing field is `none` (JS `undefined`); a JSON `null` in the
`error` field is also `none`. -/
structure Message where
  id : Option String := none
  method : Option String := none
  msg_subclass : Option String := none
  result : Option MsgResult := none
  error : Option ErrObj := none
  deriving Repr, DecidableEq

/-- JS optional chaining `msg.result?.status`. -/
def Message.resultStatus (msg : Message) : Option String :=
  msg.result.bind (·.status)

/-- JS optional chaining `msg.result?.scene_id`. -/
def Message.resultSceneId (msg : Message) : Option String :=
  msg.result.bind (·.scene_id)

/-- JS optional chaining `msg.result?.to`. -/
def Message.resultTo (msg : Message) : Option String :=
  msg.result.bind (·.«to»)

/-! ## Broadcast predicates (EzloHub.ts lines 15-27, 381, 425)

In the source, every predicate after `UIBroadcastPredicate` is written

  `SomeOtherPredicate && <boolean expression>`

where `SomeOtherPredicate` is a function *reference*, not a call.  A
function object is truthy in JavaScript, so `f && e` evaluates to `e`:
the left conjunct contributes nothing.  `andTruthyFnRef` embeds exactly
that evaluation rule, keeping the slip visible in each definition. -/

/-- JavaScript `f && e` where `f` is a function reference (always truthy):
the expression evaluates to `e`. -/
def andTruthyFnRef (e : Bool) : Bool := e

/-- `(msg) => msg.id === 'ui_broadcast'` (line 15). -/
def UIBroadcastPredicate (msg : Message) : Bool :=
  msg.id == some "ui_broadcast"

/-- `(msg) => UIBroadcastPredicate && msg.msg_subclass === 'hub.modes.switched'`
(line 17); the left operand is an uncalled function reference. -/
def UIBroadcastHouseModeChangePredicate (msg : Message) : Bool :=
  andTruthyFnRef (msg.msg_subclass == some "hub.modes.switched")

/-- `(msg) => UIBroadcastHouseModeChangePredicate && msg.result?.status === 'done'`
(line 20); the left operand is an uncalled function reference. -/
def UIBroadcastHouseModeChangeDonePredicate (msg : Message) : Bool :=
  andTruthyFnRef (msg.resultStatus == some "done")

/-- `(msg) => UIBroadcastPredicate && msg.msg_subclass === 'hub.scene.run.progress'`
(line 23); the left operand is an uncalled function reference. -/
def UIBroadcastRunScenePredicate (msg : Message) : Bool :=
  andTruthyFnRef (msg.msg_subclass == some "hub.scene.run.progress")

/-- `(msg) => UIBroadcastRunScenePredicate && msg.result?.status === 'finished'`
(line 26); the left operand is an uncalled function reference. -/
def UIBroadcastRunSceneDonePredicate (msg : Message) : Bool :=
  andTruthyFnRef (msg.resultStatus == some "finished")

/-- runScene's transient completion predicate (line 381):
`(msg) => UIBroadcastRunSceneDonePredicate && msg.result?.scene_id === scene`;
the left operand is an uncalled function reference, so only the scene id is
compared. -/
def sceneCompletePredicate (scene : String) (msg : Message) : Bool :=
  andTruthyFnRef (msg.resultSceneId == some scene)

/-- setHouseMode's transient completion predicate (line 425):
`(msg) => UIBroadcastHouseModeChangeDonePredicate && msg.result?.to === mode`;
the left operand is an uncalled function reference, so only the target mode is
compared. -/
def modeChangeDonePredicate (mode : String) (msg : Message) : Bool :=
  andTruthyFnRef (msg.resultTo == some mode)

/-! ## Observer registry (EzloHub.ts lines 29-32, 454-478)

JavaScript object identity of an `Observer` is modelled by a numeric
registration id `oid` (fresh per `addObserver` call, as each call constructs
a new object).  A handler either returns normally or throws, modelled by
`Except String Unit`. -/

/-- An entry of `this.observers`: `{predicate, handler}` plus the object
identity used by `elem !== observer`. -/
structure ObsRec where
  oid : Nat
  predicate : Message → Bool
  handler : Message → Except String Unit

/-- The hub's observer registry state: the `observers` array plus a supply
of fresh object identities. -/
structure ObsState where
  observers : List ObsRec
  fresh : Nat

/-- Registry of a newly constructed hub. -/
def ObsState.empty : ObsState := ⟨[], 0⟩

/-- `addObserver(predicate, handler)` (lines 454-458): constructs the
observer object, `push`es it onto `this.observers` and returns it (here: its
object identity). -/
def addObserver (st : ObsState) (p : Message → Bool) (h : Message → Except String Unit) :
    ObsState × Nat :=
  (⟨st.observers ++ [⟨st.fresh, p, h⟩], st.fresh + 1⟩, st.fresh)

/-- removeObserver (lines 466-468):
`return this.observers.filter(elem => elem !== observer);`.
`Array.prototype.filter` builds a *new* array; the method returns it but
never assigns it back to `this.observers`, so the registry state is
unchanged.  The pair is (post-state, returned array). -/
def removeObserver (st : ObsState) (observer : Nat) : ObsState × List ObsRec :=
  (st, st.observers.filter (fun elem => elem.oid != observer))

/-- `forEach(observer => observer.handler(message))` over the matched
observers: handlers run in order; a thrown exception aborts the iteration
and propagates.  Returns the object identities of the handlers that were
invoked and the propagated exception, if any. -/
def runHandlers (msg : Message) : List ObsRec → List Nat × Option String
  | [] => ([], none)
  | o :: rest =>
    match o.handler msg with
    | Except.ok _ =>
      let r := runHandlers msg rest
      (o.oid :: r.1, r.2)
    | Except.error e => ([o.oid], some e)

/-- notifyObservers (lines 475-478):
`this.observers.filter(observer => observer.predicate(message)).forEach(observer => observer.handler(message))`. -/
def notifyObservers (st : ObsState) (msg : Message) : List Nat × Option String :=
  runHandlers msg (st.observers.filter (fun observer => observer.predicate msg))

/-- A handler that returns normally. -/
def okHandler : Message → Except String Unit := fun _ => Except.ok ()

/-- A handler that throws. -/
def throwingHandler : Message → Except String Unit := fun _ => Except.error "boom"

/-! ## Promise settlement

A JS promise settles at most once: among the `resolve`/`reject` calls a
body executes, only the first has an effect. -/

/-- A `resolve`/`reject` call executed by a promise body. -/
inductive SettleEvent
  | resolved
  | rejected (msg : String)
  deriving Repr, DecidableEq

/-- The settlement a caller observes: the first `resolve`/`reject` call
executed (later calls are ignored by the promise machinery). -/
def promiseOutcome (events : List SettleEvent) : Option SettleEvent :=
  events.head?

/-! ## connect (EzloHub.ts lines 148-168) -/

/-- Transport-level actions the connect body initiates. -/
inductive ConnAction
  | openTransport
  | sendLoginRequest
  deriving Repr, DecidableEq

/-- Synchronous part of `connect()` (lines 148-156): if `this._isConnected`
is `true`, resolve immediately with no transport action; otherwise initiate
`wsp.open()` followed by the `hub.offline.login.ui` request.  The flag is
mutated only later, inside the asynchronous login-response continuation, so
the synchronous part leaves it unchanged (first component of the result). -/
def connectSync (isConn : Bool) : Bool × List ConnAction :=
  if isConn then (isConn, [])
  else (isConn, [ConnAction.openTransport, ConnAction.sendLoginRequest])

/-- Login response: `{error: null | {data: ...}}`. -/
structure LoginResponse where
  error : Option ErrObj
  deriving Repr, DecidableEq

/-- Login-response continuation of `connect()` (lines 157-163).  When the
response carries an error other than the `user.login.alreadylogged`
sentinel, `reject(...)` is called; there is no `return`, so execution falls
through to `this._isConnected = true; resolve(this)` in every case.  The
result is the new `_isConnected` flag and the settlement calls executed, in
order. -/
def connectLoginContinuation (url : String) (resp : LoginResponse) :
    Bool × List SettleEvent :=
  let rejectCalls :=
    match resp.error with
    | some e =>
      if e.data != "user.login.alreadylogged" then
        [SettleEvent.rejected ("Login failed for " ++ url ++ " due to error " ++ e.data)]
      else []
    | none => []
  (true, rejectCalls ++ [SettleEvent.resolved])

/-! ## sendRequest (EzloHub.ts lines 491-508) -/

/-- A correlated response: `{error: null | {data}, result}`, with the
`result` payload kept opaque. -/
structure RpcResponse (α : Type) where
  error : Option ErrObj
  result : α
  deriving Repr, DecidableEq

/-- Response continuation of `sendRequest` (lines 495-502): a non-null
`error` rejects with a message naming the hub identity, the remote
`error.data` and the JSON-serialised request; a null `error` resolves the
promise with `response.result`. -/
def sendRequestSettle {α : Type} (identity requestJson : String) (resp : RpcResponse α) :
    Except String α :=
  match resp.error with
  | some e =>
    Except.error ("Request to " ++ identity ++ " failed with " ++ e.data
      ++ " - Request: " ++ requestJson)
  | none => Except.ok resp.result

/-! ## House modes (EzloHub.ts lines 335-339, 413-445) -/

/-- A mode object as listed by `hub.modes.get` (only `_id` is read on the
setHouseMode path). -/
structure ModeObj where
  _id : String
  deriving Repr, DecidableEq

/-- Result of the `hub.modes.get` request: the available modes and the id of
the current one. -/
structure ModesGetResult where
  modes : List ModeObj
  current : String
  deriving Repr, DecidableEq

/-- currentHouseMode's continuation (lines 335-339):
`result.modes.filter(mode => mode._id === result.current)[0]`; indexing past
the end of the filtered array yields JS `undefined`, here `none`. -/
def currentHouseModeFrom (r : ModesGetResult) : Option ModeObj :=
  (r.modes.filter (fun mode => mode._id == r.current)).head?

/-- Requests `setHouseMode` sends through `sendRequest`. -/
inductive HubRequest
  | modesGet
  | modesSwitch (modeId : String)
  deriving Repr, DecidableEq

/-- What `setHouseMode` does once the `hub.modes.get` response arrived. -/
inductive SetModeStep
  | resolveNow (mode : String)
  | throwsTypeError
  | awaitBroadcast (mode : String)
  deriving Repr, DecidableEq

/-- Decision logic of `setHouseMode(mode)` (lines 413-441): it first issues
`hub.modes.get` (through `currentHouseMode`); if the hub is already in
`mode` it resolves immediately and sends nothing further; otherwise it
registers the transient `modeChangeDonePredicate mode` observer and sends
`hub.modes.switch`.  If no listed mode matches `result.current`,
`currentMode` is JS `undefined` and reading `currentMode._id` throws; the
surrounding `.catch` turns that into a rejection.  Returns the requests sent
and the step taken. -/
def setHouseModeDecide (r : ModesGetResult) (mode : String) :
    List HubRequest × SetModeStep :=
  match currentHouseModeFrom r with
  | none => ([HubRequest.modesGet], SetModeStep.throwsTypeError)
  | some currentMode =>
    if mode == currentMode._id then
      ([HubRequest.modesGet], SetModeStep.resolveNow mode)
    else
      ([HubRequest.modesGet, HubRequest.modesSwitch mode], SetModeStep.awaitBroadcast mode)

/-- Timeout armed by setHouseMode (line 439):
`result.switchToDelay * 1000 + 1000` milliseconds. -/
def setHouseModeTimeoutMs (switchToDelay : Nat) : Nat :=
  switchToDelay * 1000 + 1000

/-! ## createHub (EzloHub.ts lines 127-138) -/

/-- Credentials returned by the resolver. -/
structure HubCredentials where
  hubIdentity : String
  user : String
  token : String
  deriving Repr, DecidableEq

/-- The constructed hub value: `new EzloHub(url, credentials)`. -/
structure EzloHubModel where
  url : String
  credentials : HubCredentials
  deriving Repr, DecidableEq

/-- Settlement of a JS promise as its awaiting caller observes it. -/
inductive PromiseSettle (α : Type)
  | fulfilled (v : α)
  | rejected (e : String)
  deriving Repr, DecidableEq

/-- The value a `createHub` caller receives: a hub instance, or — on the
catch path — the caught error value itself. -/
inductive HubOrError
  | hub (h : EzloHubModel)
  | err (e : String)
  deriving Repr, DecidableEq

/-- `EzloHub.createHub(hubSerial, credentialsResolver)` (lines 127-138): the
awaited credentials lookup and the mDNS resolution of `HUB<serial>.local`
are passed in as fallible functions.  The `catch` block *returns* the caught
error (`return err`), so the async function's promise fulfils with the error
value instead of rejecting. -/
def createHub (hubSerial : String)
    (credentialsOf : String → Except String HubCredentials)
    (mdnsResolve4 : String → Except String String) : PromiseSettle HubOrError :=
  match credentialsOf hubSerial with
  | Except.error e => PromiseSettle.fulfilled (HubOrError.err e)
  | Except.ok credentails =>
    match mdnsResolve4 ("HUB" ++ hubSerial ++ ".local") with
    | Except.error e => PromiseSettle.fulfilled (HubOrError.err e)
    | Except.ok ipaddress =>
      PromiseSettle.fulfilled
        (HubOrError.hub ⟨"wss://" ++ ipaddress ++ ":17000", credentails⟩)

end EzloHubKit

namespace EzloHubKit

/-! ## Theorems -/

/-- C1 (code bug): `removeObserver` does not deregister the observer.  After
`addObserver` with an always-true predicate followed by
`removeObserver(handle)`, the registry still holds the observer (length 1)
and a subsequent dispatch still invokes its handler: the source discards the
array produced by `Array.prototype.filter` instead of assigning it to
`this.observers`. -/
theorem removeObserver_does_not_deregister :
    (((removeObserver (addObserver ObsState.empty (fun _ => true) okHandler).1
        (addObserver ObsState.empty (fun _ => true) okHandler).2).1).observers.length = 1) ∧
    ((notifyObservers
        (removeObserver (addObserver ObsState.empty (fun _ => true) okHandler).1
          (addObserver ObsState.empty (fun _ => true) okHandler).2).1 {}).1
      = [(addObserver ObsState.empty (fun _ => true) okHandler).2]) :=
  ⟨rfl, rfl⟩

/-- C2 (code bug): the broadcast that the failing input models reports
`scene_id = "S1"` with `status: "started"` (not `"finished"`), yet runScene's
completion predicate accepts it — the predicate compares only the scene id
because `UIBroadcastRunSceneDonePredicate` appears as an uncalled (truthy)
function reference — so a registry holding the transient observer dispatches
the resolving handler.  A different scene id is still rejected. -/
theorem runScene_resolves_without_finished_status :
    (sceneCompletePredicate "S1"
      { id := some "ui_broadcast", msg_subclass := some "hub.scene.run.progress",
        result := some { scene_id := some "S1", status := some "started" } } = true) ∧
    (Message.resultStatus
      { id := some "ui_broadcast", msg_subclass := some "hub.scene.run.progress",
        result := some { scene_id := some "S1", status := some "started" } } ≠ some "finished") ∧
    ((notifyObservers ⟨[⟨0, sceneCompletePredicate "S1", okHandler⟩], 1⟩
      { id := some "ui_broadcast", msg_subclass := some "hub.scene.run.progress",
        result := some { scene_id := some "S1", status := some "started" } }).1 = [0]) ∧
    (sceneCompletePredicate "S1"
      { result := some { scene_id := some "S2", status := some "finished" } } = false) := by
  refine ⟨rfl, ?_, rfl, rfl⟩
  intro h
  simp [Message.resultStatus] at h

/-- C3 (code bug): a message whose only populated field is `result.to = "2"`
— no `msg_subclass`, no `result.status` — satisfies setHouseMode's completion
predicate for mode `"2"`, because `UIBroadcastHouseModeChangeDonePredicate`
appears as an uncalled (truthy) function reference and only `result?.to` is
compared; the transient observer therefore fires and resolves on it. -/
theorem setHouseMode_resolves_without_switched_broadcast :
    (modeChangeDonePredicate "2" { result := some { «to» := some "2" } } = true) ∧
    ((Message.mk none none none (some { «to» := some "2" }) none).msg_subclass
      ≠ some "hub.modes.switched") ∧
    (Message.resultStatus { result := some { «to» := some "2" } } ≠ some "done") ∧
    ((notifyObservers ⟨[⟨0, modeChangeDonePredicate "2", okHandler⟩], 1⟩
      { result := some { «to» := some "2" } }).1 = [0]) := by
  refine ⟨rfl, ?_, ?_, rfl⟩
  · intro h; cases h
  · intro h; simp [Message.resultStatus] at h

/-- C4 (code bug): a login response whose error data is
`user.login.badpassword` makes the connect promise settle rejected (the
`reject` call runs first), but — the `if` body lacking a `return` —
execution falls through and still sets `_isConnected` to `true`, so
`isConnected()` reports connected after the failed attempt. -/
theorem connect_login_failure_leaves_connected_flag_set :
    (promiseOutcome (connectLoginContinuation "wss://192.168.1.10:17000"
        ⟨some ⟨"user.login.badpassword"⟩⟩).2
      = some (SettleEvent.rejected
          "Login failed for wss://192.168.1.10:17000 due to error user.login.badpassword")) ∧
    ((connectLoginContinuation "wss://192.168.1.10:17000"
        ⟨some ⟨"user.login.badpassword"⟩⟩).1 = true) := by
  exact ⟨rfl, rfl⟩

/-- C6 counterexample: `_isConnected` is still false while a connect attempt
is in flight (the flag is set only in the asynchronous login continuation)
and `connectSync` leaves the flag unchanged, so a second `connect()` call
made before the first attempt finishes initiates the transport open and the
login request again: the two calls perform two `openTransport` actions in
total, not one. -/
theorem second_connect_starts_second_open :
    ((connectSync (connectSync false).1).2
      = [ConnAction.openTransport, ConnAction.sendLoginRequest]) ∧
    (((connectSync false).2 ++ (connectSync (connectSync false).1).2).count
        ConnAction.openTransport = 2) := by
  exact ⟨rfl, rfl⟩

/-- C6 amended: `connect()` performs no transport action (resolving
immediately) exactly when the connected flag is already true; when the flag
is false — as it still is while a previous attempt is in flight, the
synchronous part leaving it unchanged — a call initiates the transport open
and the login request, and a second call made before the first attempt's
continuation runs initiates both again. -/
theorem connect_reopens_while_attempt_in_flight (b : Bool) :
    ((connectSync b).2 = [] ↔ b = true) ∧
    (b = false →
      (connectSync b).2 = [ConnAction.openTransport, ConnAction.sendLoginRequest] ∧
      (connectSync (connectSync b).1).2
        = [ConnAction.openTransport, ConnAction.sendLoginRequest]) := by
  cases b <;> simp [connectSync]

/-- C6 witness: the amended theorem instantiated at a not-connected flag. -/
theorem connect_reopens_witness :
    (connectSync false).2 = [ConnAction.openTransport, ConnAction.sendLoginRequest] ∧
    (connectSync (connectSync false).1).2
      = [ConnAction.openTransport, ConnAction.sendLoginRequest] :=
  (connect_reopens_while_attempt_in_flight false).2 rfl

/-- C7 counterexample: two registered observers both match the message; the
first handler throws, the `forEach` dispatch aborts, the second matched
handler is never invoked (only oid 0 runs), and the exception propagates out
of `notifyObservers`. -/
theorem throwing_handler_stops_dispatch :
    ((notifyObservers
        ⟨[⟨0, fun _ => true, throwingHandler⟩, ⟨1, fun _ => true, okHandler⟩], 2⟩ {}).1
      = [0]) ∧
    ((notifyObservers
        ⟨[⟨0, fun _ => true, throwingHandler⟩, ⟨1, fun _ => true, okHandler⟩], 2⟩ {}).2
      = some "boom") :=
  ⟨rfl, rfl⟩

/-- Helper: `runHandlers` over a concatenation whose first part consists of
handlers that all return normally invokes that part in order and continues
with the rest. -/
theorem runHandlers_append_ok (msg : Message) (l1 l2 : List ObsRec)
    (h : ∀ o ∈ l1, o.handler msg = Except.ok ()) :
    runHandlers msg (l1 ++ l2)
      = (l1.map ObsRec.oid ++ (runHandlers msg l2).1, (runHandlers msg l2).2) := by
  induction l1 with
  | nil => simp [runHandlers]
  | cons o rest ih =>
    have ho : o.handler msg = Except.ok () := h o (List.mem_cons_self o rest)
    have hr : ∀ p ∈ rest, p.handler msg = Except.ok () :=
      fun p hp => h p (List.mem_cons_of_mem o hp)
    simp [runHandlers, ho, ih hr]

/-- C7 amended: dispatch invokes matched handlers in registration order only
up to and including the first one that throws: every matched observer
registered before the throwing one runs, the matched observers after it are
skipped, and the exception propagates out of the dispatch. -/
theorem dispatch_stops_at_first_throwing_handler
    (pre : List ObsRec) (o : ObsRec) (post : List ObsRec) (n : Nat)
    (msg : Message) (e : String)
    (hpre : ∀ p ∈ pre, p.predicate msg = true ∧ p.handler msg = Except.ok ())
    (ho : o.predicate msg = true) (he : o.handler msg = Except.error e) :
    notifyObservers ⟨pre ++ o :: post, n⟩ msg = (pre.map ObsRec.oid ++ [o.oid], some e) := by
  unfold notifyObservers
  have hfil : (pre ++ o :: post).filter (fun observer => observer.predicate msg)
      = pre ++ o :: post.filter (fun observer => observer.predicate msg) := by
    rw [List.filter_append]
    congr 1
    · exact List.filter_eq_self.mpr (fun p hp => (hpre p hp).1)
    · simp [List.filter_cons, ho]
  rw [hfil,
    runHandlers_append_ok msg pre (o :: post.filter (fun observer => observer.predicate msg))
      (fun p hp => (hpre p hp).2)]
  simp [runHandlers, he]

/-- C7 witness: the amended theorem at a concrete registry of three matching
observers whose middle handler throws: only oids 5 and 6 run. -/
theorem dispatch_stops_witness :
    notifyObservers
        ⟨[⟨5, fun _ => true, okHandler⟩, ⟨6, fun _ => true, throwingHandler⟩,
          ⟨7, fun _ => true, okHandler⟩], 8⟩ {}
      = ([5, 6], some "boom") :=
  dispatch_stops_at_first_throwing_handler
    [⟨5, fun _ => true, okHandler⟩] ⟨6, fun _ => true, throwingHandler⟩
    [⟨7, fun _ => true, okHandler⟩] 8 {} "boom"
    (fun p hp => by
      rcases List.mem_singleton.mp hp with rfl
      exact ⟨rfl, rfl⟩)
    rfl rfl

/-- C8: sendRequest's completion resolves with the response's `result` field
exactly when the response's `error` field is null; when `error` is non-null
it rejects, and the failure message embeds the hub identity, the remote
error payload (`error.data`) and the serialised original request. -/
theorem sendRequest_settles_on_error_field {α : Type} (identity requestJson : String)
    (resp : RpcResponse α) :
    (sendRequestSettle identity requestJson resp = Except.ok resp.result
      ↔ resp.error = none) ∧
    (∀ e, resp.error = some e →
      sendRequestSettle identity requestJson resp
        = Except.error ("Request to " ++ identity ++ " failed with " ++ e.data
            ++ " - Request: " ++ requestJson)) := by
  constructor
  · obtain ⟨err, res⟩ := resp
    cases err <;> simp [sendRequestSettle]
  · intro e he
    simp [sendRequestSettle, he]

/-- C8 witness: a response carrying `error.data = "bad.params"` rejects with
the composed diagnostic message; instantiates the theorem. -/
theorem sendRequest_settles_witness :
    sendRequestSettle "90000123" "reqjson"
        ({ error := some ⟨"bad.params"⟩, result := "r" } : RpcResponse String)
      = Except.error ("Request to " ++ "90000123" ++ " failed with " ++ "bad.params"
          ++ " - Request: " ++ "reqjson") :=
  (sendRequest_settles_on_error_field "90000123" "reqjson" _).2 ⟨"bad.params"⟩ rfl

/-- C9: when the `hub.modes.get` response reports a current mode whose `_id`
equals the requested mode, `setHouseMode` resolves immediately to that mode
and the only request sent is the `hub.modes.get` itself — in particular no
`hub.modes.switch` request is emitted. -/
theorem setHouseMode_already_in_mode_short_circuits
    (r : ModesGetResult) (mode : String) (cm : ModeObj)
    (hcur : currentHouseModeFrom r = some cm) (hid : cm._id = mode) :
    (setHouseModeDecide r mode).2 = SetModeStep.resolveNow mode ∧
    ∀ m, HubRequest.modesSwitch m ∉ (setHouseModeDecide r mode).1 := by
  have hbeq : (mode == cm._id) = true := beq_iff_eq.mpr hid.symm
  unfold setHouseModeDecide
  rw [hcur]
  simp only [hbeq, if_true]
  refine ⟨by trivial, ?_⟩
  intro m hm
  rcases List.mem_singleton.mp hm with h
  cases h

/-- C9 witness: a hub currently in mode "1" asked for mode "1": resolves at
once and no switch request appears; instantiates the theorem. -/
theorem setHouseMode_short_circuit_witness :
    (setHouseModeDecide ⟨[⟨"1"⟩, ⟨"2"⟩], "1"⟩ "1").2 = SetModeStep.resolveNow "1" ∧
    ∀ m, HubRequest.modesSwitch m ∉ (setHouseModeDecide ⟨[⟨"1"⟩, ⟨"2"⟩], "1"⟩ "1").1 :=
  setHouseMode_already_in_mode_short_circuits ⟨[⟨"1"⟩, ⟨"2"⟩], "1"⟩ "1" ⟨"1"⟩ rfl rfl

/-- C10: createHub never rejects: on every input the returned promise
fulfils, and on either failure path — credentials resolution or mDNS
resolution of `HUB<serial>.local` — it fulfils with the caught error value
instead of a hub instance. -/
theorem createHub_fulfils_with_error_value (hubSerial : String)
    (credentialsOf : String → Except String HubCredentials)
    (mdnsResolve4 : String → Except String String) :
    (∃ v, createHub hubSerial credentialsOf mdnsResolve4 = PromiseSettle.fulfilled v) ∧
    (∀ e, credentialsOf hubSerial = Except.error e →
      createHub hubSerial credentialsOf mdnsResolve4
        = PromiseSettle.fulfilled (HubOrError.err e)) ∧
    (∀ c e, credentialsOf hubSerial = Except.ok c →
      mdnsResolve4 ("HUB" ++ hubSerial ++ ".local") = Except.error e →
      createHub hubSerial credentialsOf mdnsResolve4
        = PromiseSettle.fulfilled (HubOrError.err e)) := by
  refine ⟨?_, ?_, ?_⟩
  · cases hc : credentialsOf hubSerial with
    | error e => exact ⟨HubOrError.err e, by simp [createHub, hc]⟩
    | ok c =>
      cases hr : mdnsResolve4 ("HUB" ++ hubSerial ++ ".local") with
      | error e => exact ⟨HubOrError.err e, by simp [createHub, hc, hr]⟩
      | ok ip =>
        exact ⟨HubOrError.hub ⟨"wss://" ++ ip ++ ":17000", c⟩, by simp [createHub, hc, hr]⟩
  · intro e he
    simp [createHub, he]
  · intro c e hc hr
    simp [createHub, hc, hr]

/-- C10 witness: a credentials resolver failing with "invalid hub" makes
createHub fulfil with that error value; instantiates the theorem. -/
theorem createHub_fulfils_witness :
    createHub "123" (fun _ => Except.error "invalid hub") (fun _ => Except.ok "10.0.0.5")
      = PromiseSettle.fulfilled (HubOrError.err "invalid hub") :=
  (createHub_fulfils_with_error_value "123" (fun _ => Except.error "invalid hub")
    (fun _ => Except.ok "10.0.0.5")).2.1 "invalid hub" rfl

end EzloHubKit
